import Mathlib

/-!
Verification of the `actor` package (actor.go, second revision: the
RWMutex-based design with `Teach`, `Reader`, `Writer`, `Shutdown`, and the
`action` dispatcher loop).  Go channels are modelled as explicit buffers,
goroutine interleavings as explicit schedules, and the dispatcher loop as a
recursion over the sequence of requests its channel delivers.
-/

namespace ActorSpec

/-- Lock mode ordinal, from `type RW int` with `Read = iota; Write`
(actor.go 142-147).  Kept as an integer so out-of-range ordinals such as
`RW(7)` are expressible. -/
abbrev RW := Int

/-- The `Read` mode constant (ordinal 0). -/
def Read : RW := 0

/-- The `Write` mode constant (ordinal 1). -/
def Write : RW := 1

/-- Which discipline of the actor's `sync.RWMutex` a dispatcher uses. -/
inductive LockKind where
  | shared
  | exclusive
deriving DecidableEq

/-- The lock-selection switch at the top of `action` (actor.go 231-242):
`case Read` picks `RLock/RUnlock`; `case Write` falls through to `default`,
which picks `Lock/Unlock`, so every non-`Read` ordinal gets the exclusive
pair. -/
def lockFor (rw : RW) : LockKind :=
  if rw = Read then LockKind.shared else LockKind.exclusive

/-- State of the `quit chan struct\x7b\x7d` field of an `Actor`
(actor.go 122-126): nil (zero value), allocated and open, or closed. -/
inductive QuitChan where
  | nil
  | opened
  | closed
deriving DecidableEq

/-- The lifecycle-relevant state of an `Actor` (actor.go 122-126): the
`quit` channel and the counter of the `sync.WaitGroup` tracking live
dispatcher goroutines. -/
structure ActorState where
  quit : QuitChan
  wgCount : Nat
deriving DecidableEq

/-- The zero value `var a actor.Actor`: nil quit channel, zero WaitGroup. -/
def zeroActor : ActorState := { quit := QuitChan.nil, wgCount := 0 }

/-- A Go runtime panic relevant to this package. -/
inductive GoPanic where
  | closeOfClosedChan
deriving DecidableEq

/-- Outcome of a completed `Shutdown` call: the actor state afterwards and
whether `wg.Wait()` returned without ever blocking. -/
structure ShutdownResult where
  state : ActorState
  waitImmediate : Bool
deriving DecidableEq

/-- `(*Actor).Shutdown` (actor.go 129-134): `close(a.quit)` guarded by a nil
check, then `a.wg.Wait()`.  Closing a closed channel panics.  When the quit
channel is closed every dispatcher takes its quit branch and calls
`wg.Done`, so the wait drains the counter to zero; the wait is immediate
exactly when the counter was already zero. -/
def ActorState.shutdown (a : ActorState) : Except GoPanic ShutdownResult :=
  match a.quit with
  | QuitChan.nil =>
      Except.ok { state := a, waitImmediate := a.wgCount = 0 }
  | QuitChan.opened =>
      Except.ok { state := { quit := QuitChan.closed, wgCount := 0 },
                  waitImmediate := a.wgCount = 0 }
  | QuitChan.closed => Except.error GoPanic.closeOfClosedChan

/-- Whether the actor's cancellation signal (the quit channel) has been
created. -/
def signalCreated (a : ActorState) : Prop := a.quit ≠ QuitChan.nil

/-- The effect of one `Teach` call on the actor's fields (actor.go 190-199):
allocate the quit channel if it is nil, then `wg.Add(1)` for the new
dispatcher goroutine. -/
def teachActor (a : ActorState) : ActorState :=
  let a1 := if a.quit = QuitChan.nil then { a with quit := QuitChan.opened } else a
  { a1 with wgCount := a1.wgCount + 1 }

/-- The quit-channel initialization guard of `Teach` (actor.go 190-192) run
atomically (no interleaving inside the nil check):  the state is the channel
held in `actor.quit` (identified by allocation order) paired with how many
channels have been allocated so far. -/
def initGuard (s : Option Nat × Nat) : Option Nat × Nat :=
  match s.1 with
  | none => (some s.2, s.2 + 1)
  | some k => (some k, s.2)

/-- Program counter of one goroutine running the initialization guard of
`Teach` (actor.go 190-192) with its two memory accesses made explicit:
first load `actor.quit` and test it against nil, then (if the load saw nil)
store a freshly allocated channel. -/
inductive InitPc where
  | start
  | decided (sawNil : Bool)
  | done
deriving DecidableEq

/-- Shared and private state of two goroutines racing through the
initialization guard of `Teach` (actor.go 190-192): the `quit` field
(channel identified by allocation order), the allocation counter, and each
goroutine's program counter. -/
structure InitRace where
  quit : Option Nat
  nextId : Nat
  pc1 : InitPc
  pc2 : InitPc
deriving DecidableEq

/-- Both racing goroutines about to run the guard on a zero-valued actor. -/
def initRaceStart : InitRace :=
  { quit := none, nextId := 0, pc1 := InitPc.start, pc2 := InitPc.start }

/-- One atomic memory access of the guard by one goroutine: the load-test
of `actor.quit`, or the store of a new channel.  Returns the goroutine's new
program counter and the new shared state. -/
def initAccess (pc : InitPc) (quit : Option Nat) (nextId : Nat) :
    InitPc × Option Nat × Nat :=
  match pc with
  | InitPc.start => (InitPc.decided quit.isNone, quit, nextId)
  | InitPc.decided true => (InitPc.done, some nextId, nextId + 1)
  | InitPc.decided false => (InitPc.done, quit, nextId)
  | InitPc.done => (InitPc.done, quit, nextId)

/-- Run the two racing goroutines under a schedule listing which goroutine
performs the next memory access. -/
def initRun (s : InitRace) : List (Fin 2) → InitRace
  | [] => s
  | t :: rest =>
      if t = 0 then
        let r := initAccess s.pc1 s.quit s.nextId
        initRun { s with pc1 := r.1, quit := r.2.1, nextId := r.2.2 } rest
      else
        let r := initAccess s.pc2 s.quit s.nextId
        initRun { s with pc2 := r.1, quit := r.2.1, nextId := r.2.2 } rest

variable {I O : Type} {σ : Type}

/-- A request: the anonymous struct sent on a lane's channel (actor.go
194-197, 212-218) — one input plus its dedicated response channel,
identified here by allocation order. -/
structure Request (I : Type) where
  input : I
  ochanId : Nat
deriving DecidableEq

/-- An observable event of a lane's dispatcher: lock acquisition and
release, the synchronous act invocation, the send on a response channel,
and loop exit on the quit branch. -/
inductive Ev (I O : Type) where
  | acquire (k : LockKind)
  | invoke (i : I) (o : O)
  | release (k : LockKind)
  | respond (ochanId : Nat) (o : O)
  | laneExit
deriving DecidableEq

/-- One iteration of the dispatcher loop body for a received request
(actor.go 246-251): `lock()`, `o := act(s.I)`, `unlock()`,
`s.Ochan <- o`, with `lock/unlock` the pair selected by `lockFor`. -/
def serveOne (rw : RW) (act : I → O) (r : Request I) : List (Ev I O) :=
  [Ev.acquire (lockFor rw), Ev.invoke r.input (act r.input),
   Ev.release (lockFor rw), Ev.respond r.ochanId (act r.input)]

/-- The dispatcher loop `action` (actor.go 227-256), run over the sequence
of requests its channel delivers before the quit branch is taken: each
request is served in full, in receive order, then the loop returns. -/
def action (rw : RW) (act : I → O) : List (Request I) → List (Ev I O)
  | [] => [Ev.laneExit]
  | r :: rs => serveOne rw act r ++ action rw act rs

/-- The values a dispatcher trace sends to response channel `n`. -/
def responsesTo (n : Nat) (tr : List (Ev I O)) : List O :=
  tr.filterMap fun e =>
    match e with
    | Ev.respond m o => if m = n then some o else none
    | _ => none

/-- The inputs a dispatcher trace invokes the act on, in order. -/
def servedInputs (tr : List (Ev I O)) : List I :=
  tr.filterMap fun e =>
    match e with
    | Ev.invoke i _ => some i
    | _ => none

/-- A buffered Go channel: capacity and current buffer contents. -/
structure Chan (O : Type) where
  cap : Nat
  buf : List O
deriving DecidableEq

/-- A channel send: succeeds immediately iff the buffer has slack; `none`
means the sender would block. -/
def Chan.send (ch : Chan O) (o : O) : Option (Chan O) :=
  if ch.buf.length < ch.cap then some { ch with buf := ch.buf ++ [o] } else none

/-- The response channel a call-wrapper invocation allocates:
`ochan := make(chan O, 1)` (actor.go 208). -/
def mkOchan (O : Type) : Chan O := { cap := 1, buf := [] }

/-- Perform a sequence of sends on a channel; `none` as soon as one would
block. -/
def deliver (ch : Chan O) : List O → Option (Chan O)
  | [] => some ch
  | o :: rest =>
      match ch.send o with
      | none => none
      | some ch2 => deliver ch2 rest

/-- Which branch the forwarding goroutine's `select` takes
(actor.go 210-221): the hand-off to the lane channel, or the actor's quit
channel. -/
inductive RaceOutcome where
  | handedOff
  | quitObserved
deriving DecidableEq

/-- The forwarding goroutine started by a call-wrapper invocation
(actor.go 210-221): it either hands the request to the lane channel or
observes quit and returns, dropping the request. -/
def forward (outcome : RaceOutcome) (r : Request I) : Option (Request I) :=
  match outcome with
  | RaceOutcome.handedOff => some r
  | RaceOutcome.quitObserved => none

/-- What one `Teach` call sets up besides the actor-field update: the
lane's mode and its dispatcher bound to the act and that mode. -/
structure LaneSpec (I O : Type) where
  mode : RW
  dispatch : List (Request I) → List (Ev I O)

/-- `Teach` (actor.go 189-225): update the actor's fields and start a
dispatcher for the act under the given mode. -/
def Teach (a : ActorState) (act : I → O) (rw : RW) : ActorState × LaneSpec I O :=
  (teachActor a, { mode := rw, dispatch := action rw act })

/-- `Reader` (actor.go 152-154): `Teach(actor, act, Read)`. -/
def Reader (a : ActorState) (act : I → O) : ActorState × LaneSpec I O :=
  Teach a act Read

/-- `Writer` (actor.go 159-161): `Teach(actor, act, Write)`. -/
def Writer (a : ActorState) (act : I → O) : ActorState × LaneSpec I O :=
  Teach a act Write

/-- The dispatcher loop of a single lane with the shared state the act
closes over made explicit: requests are taken from the lane channel in
receive order (actor.go 244-255) and each act runs to completion under the
lock before the next is taken. -/
def runLane (act : I → σ → O × σ) : List I → σ → σ × List O
  | [], s => (s, [])
  | i :: rest, s =>
      let p := act i s
      let q := runLane act rest p.2
      (q.1, p.1 :: q.2)

/-- The actor's `actlk sync.RWMutex` (actor.go 123), modelled by the Go
runtime contract: `RLock` admits other readers but no writer; `Lock`
admits no other holder of either kind. -/
structure RWMutex where
  readers : Nat
  writerHeld : Bool
deriving DecidableEq

/-- Whether a `LockKind` is the shared discipline. -/
def LockKind.isShared : LockKind → Bool
  | LockKind.shared => true
  | LockKind.exclusive => false

/-- Whether a `LockKind` is the exclusive discipline. -/
def LockKind.isExcl : LockKind → Bool
  | LockKind.shared => false
  | LockKind.exclusive => true

/-- One lane as seen by the lock: its configured mode and whether its
dispatcher is currently inside the `lock() ... unlock()` critical section
(actor.go 247-249), i.e. executing its act. -/
structure LaneSt where
  rw : RW
  busy : Bool
deriving DecidableEq

/-- One actor with its `RWMutex` and any number of attached lanes. -/
structure Sys where
  lk : RWMutex
  lanes : List LaneSt
deriving DecidableEq

/-- A lane currently executing its act under the shared discipline. -/
def laneSharedBusy (l : LaneSt) : Bool := l.busy && (lockFor l.rw).isShared

/-- A lane currently executing its act under the exclusive discipline. -/
def laneExclBusy (l : LaneSt) : Bool := l.busy && (lockFor l.rw).isExcl

/-- How many act executions under the shared discipline are in progress. -/
def sharedBusy (s : Sys) : Nat := (s.lanes.filter laneSharedBusy).length

/-- How many act executions under the exclusive discipline are in
progress. -/
def exclBusy (s : Sys) : Nat := (s.lanes.filter laneExclBusy).length

/-- An actor with lanes taught under the given modes, none executing, lock
free. -/
def sysInit (modes : List RW) : Sys :=
  { lk := { readers := 0, writerHeld := false },
    lanes := modes.map fun rw => { rw := rw, busy := false } }

/-- Interleaved execution of the dispatchers of all lanes of one actor: a
lane enters its critical section only when the `RWMutex` grants it in the
mode `lockFor` selects from the lane's configured mode (actor.go 231-242),
and leaves it releasing the lock.  `RLock` is granted while no writer holds
the lock; `Lock` is granted only when no reader and no writer holds it. -/
inductive SysStep : Sys → Sys → Prop where
  | enterShared (s : Sys) (j : Nat) (l : LaneSt)
      (hl : s.lanes[j]? = some l) (hidle : l.busy = false)
      (hmode : lockFor l.rw = LockKind.shared)
      (hw : s.lk.writerHeld = false) :
      SysStep s { lk := { readers := s.lk.readers + 1, writerHeld := false },
                  lanes := s.lanes.set j { l with busy := true } }
  | enterExclusive (s : Sys) (j : Nat) (l : LaneSt)
      (hl : s.lanes[j]? = some l) (hidle : l.busy = false)
      (hmode : lockFor l.rw = LockKind.exclusive)
      (hw : s.lk.writerHeld = false) (hr : s.lk.readers = 0) :
      SysStep s { lk := { readers := 0, writerHeld := true },
                  lanes := s.lanes.set j { l with busy := true } }
  | exitShared (s : Sys) (j : Nat) (l : LaneSt)
      (hl : s.lanes[j]? = some l) (hbusy : l.busy = true)
      (hmode : lockFor l.rw = LockKind.shared) :
      SysStep s { lk := { readers := s.lk.readers - 1,
                          writerHeld := s.lk.writerHeld },
                  lanes := s.lanes.set j { l with busy := false } }
  | exitExclusive (s : Sys) (j : Nat) (l : LaneSt)
      (hl : s.lanes[j]? = some l) (hbusy : l.busy = true)
      (hmode : lockFor l.rw = LockKind.exclusive) :
      SysStep s { lk := { readers := s.lk.readers, writerHeld := false },
                  lanes := s.lanes.set j { l with busy := false } }

/-- The states one actor's lanes can reach from all-idle. -/
def Reachable (modes : List RW) (s : Sys) : Prop :=
  Relation.ReflTransGen SysStep (sysInit modes) s

/-- The lock-accounting invariant tying the `RWMutex` fields to the lanes
currently executing their acts. -/
def lockInv (s : Sys) : Prop :=
  s.lk.readers = sharedBusy s ∧
    (s.lk.writerHeld = true → exclBusy s = 1 ∧ s.lk.readers = 0) ∧
    (s.lk.writerHeld = false → exclBusy s = 0)

end ActorSpec

namespace ActorSpec

variable {I O : Type} {σ : Type}

/-- Claim C10: every mode other than `Read` — `Write` and any out-of-range
ordinal such as `RW(7)` alike — makes the dispatcher select the exclusive
`Lock/Unlock` pair, via the `default` fallthrough of the switch in
`action`. -/
theorem claim_C10_default_exclusive (rw : RW) (h : rw ≠ Read) :
    lockFor rw = LockKind.exclusive ∧ lockFor Write = LockKind.exclusive := by
  constructor
  · unfold lockFor
    simp [h]
  · unfold lockFor Write Read
    simp

/-- Witness for C10 at the out-of-range ordinal `RW(7)`. -/
theorem claim_C10_witness :
    lockFor (7 : RW) = LockKind.exclusive ∧ lockFor Write = LockKind.exclusive :=
  claim_C10_default_exclusive (7 : RW) (by decide)

/-- Counterexample to claim C3 as stated: on the zero-valued actor (no lane
ever registered) `Shutdown` completes, but the cancellation signal is NOT
created — the nil check skips the close and `a.quit` stays nil — refuting
the claim's clause that the signal is still created. -/
theorem claim_C3_cex :
    zeroActor.shutdown = Except.ok { state := zeroActor, waitImmediate := true } ∧
      ¬ signalCreated zeroActor := by
  constructor
  · rfl
  · intro h
    exact h rfl

/-- Claim C3 (amended): calling `Shutdown` on an actor before any lane
exists is legal: the close is skipped (the quit channel remains nil, so no
cancellation signal is created), and the wait returns immediately without
blocking, so `Shutdown` returns promptly. -/
theorem claim_C3_no_lane_shutdown (a : ActorState)
    (hq : a.quit = QuitChan.nil) (hw : a.wgCount = 0) :
    a.shutdown = Except.ok { state := a, waitImmediate := true } ∧
      ¬ signalCreated a := by
  constructor
  · unfold ActorState.shutdown
    rw [hq]
    simp [hw]
  · intro h
    exact h hq

/-- Witness for amended C3 at the zero-valued actor. -/
theorem claim_C3_witness :
    zeroActor.shutdown = Except.ok { state := zeroActor, waitImmediate := true } ∧
      ¬ signalCreated zeroActor :=
  claim_C3_no_lane_shutdown zeroActor rfl rfl

/-- Claim C4: once the cancellation signal exists (some Teach call
occurred), a second `Shutdown` after a completed first one panics: the
first close leaves the quit channel closed, and `close` of a closed channel
faults instead of being a no-op. -/
theorem claim_C4_double_shutdown_panics (a : ActorState)
    (hq : a.quit = QuitChan.opened) (r : ShutdownResult)
    (hfirst : a.shutdown = Except.ok r) :
    r.state.shutdown = Except.error GoPanic.closeOfClosedChan := by
  unfold ActorState.shutdown at hfirst
  rw [hq] at hfirst
  simp at hfirst
  rw [← hfirst]
  rfl

/-- Witness for C4: teach the zero actor once, shut it down, and shut it
down again. -/
theorem claim_C4_witness :
    (teachActor zeroActor).quit = QuitChan.opened ∧
      ({ quit := QuitChan.closed, wgCount := 0 } : ActorState).shutdown =
        Except.error GoPanic.closeOfClosedChan :=
  ⟨by decide,
    claim_C4_double_shutdown_panics (teachActor zeroActor) (by decide)
      { state := { quit := QuitChan.closed, wgCount := 0 }, waitImmediate := false }
      rfl⟩

/-- Counterexample to claim C8 as stated: the quit-channel initialization is
NOT execute-once under concurrent first-use callers.  Under the interleaving
where both goroutines pass the nil test before either stores, each allocates
a channel: two channels are created and the second store replaces the
first caller's channel, so a later call did not leave it unchanged. -/
theorem claim_C8_cex :
    (initRun initRaceStart [0, 1, 0, 1]).nextId = 2 ∧
      (initRun initRaceStart [0, 1, 0, 1]).quit = some 1 := by
  decide

/-- Claim C8 (amended): the initialization guard is idempotent only under
the package's documented sequential-use precondition: for every sequence of
non-overlapping Teach/Reader/Writer calls, the first call creates the quit
channel and every later call leaves it unchanged (one allocation total);
under concurrent first-use callers the unguarded nil check admits double
allocation. -/
theorem claim_C8_sequential_once (n : Nat) (hn : 1 ≤ n) :
    initGuard^[n] (none, 0) = (some 0, 1) ∧
      ∀ s, initGuard (initGuard s) = initGuard s := by
  constructor
  · induction n with
    | zero => exact absurd hn (by decide)
    | succ m ih =>
        cases Nat.eq_zero_or_pos m with
        | inl h0 => subst h0; rfl
        | inr hpos =>
            rw [Function.iterate_succ_apply', ih hpos]
            rfl
  · intro s
    cases s with
    | mk q k =>
        cases q with
        | none => rfl
        | some j => rfl

/-- Witness for amended C8 at three sequential calls. -/
theorem claim_C8_witness :
    initGuard^[3] (none, 0) = (some 0, 1) ∧
      ∀ s, initGuard (initGuard s) = initGuard s :=
  claim_C8_sequential_once 3 (by decide)

/-- Claim C5: `Reader` is exactly `Teach` with the mode fixed to `Read`,
and `Writer` is exactly `Teach` with the mode fixed to `Write`. -/
theorem claim_C5_reader_writer (a : ActorState) (act : I → O) :
    Reader a act = Teach a act Read ∧ Writer a act = Teach a act Write :=
  ⟨rfl, rfl⟩

theorem responsesTo_append (n : Nat) (t1 t2 : List (Ev I O)) :
    responsesTo n (t1 ++ t2) = responsesTo n t1 ++ responsesTo n t2 := by
  unfold responsesTo
  exact List.filterMap_append t1 t2 _

theorem responsesTo_serveOne_self (rw : RW) (act : I → O) (r : Request I) :
    responsesTo r.ochanId (serveOne rw act r) = [act r.input] := by
  simp [responsesTo, serveOne]

theorem responsesTo_serveOne_ne (rw : RW) (act : I → O) (r : Request I)
    (n : Nat) (h : r.ochanId ≠ n) :
    responsesTo n (serveOne rw act r) = [] := by
  simp [responsesTo, serveOne, h]

theorem responsesTo_action_not_mem (rw : RW) (act : I → O)
    (rs : List (Request I)) (n : Nat) (h : n ∉ rs.map Request.ochanId) :
    responsesTo n (action rw act rs) = [] := by
  induction rs with
  | nil => simp [action, responsesTo]
  | cons r rest ih =>
      simp only [List.map_cons, List.mem_cons, not_or] at h
      rw [action, responsesTo_append,
        responsesTo_serveOne_ne rw act r n (fun hx => h.1 hx.symm), ih h.2]
      rfl

theorem responsesTo_action_nodup (rw : RW) (act : I → O)
    (rs : List (Request I)) (r : Request I) (hr : r ∈ rs)
    (hnd : (rs.map Request.ochanId).Nodup) :
    responsesTo r.ochanId (action rw act rs) = [act r.input] := by
  induction rs with
  | nil => exact absurd hr (List.not_mem_nil r)
  | cons a rest ih =>
      rw [List.map_cons, List.nodup_cons] at hnd
      rw [action, responsesTo_append]
      cases List.mem_cons.mp hr with
      | inl heq =>
          subst heq
          rw [responsesTo_serveOne_self,
            responsesTo_action_not_mem rw act rest r.ochanId hnd.1]
          rfl
      | inr hmem =>
          have hne : a.ochanId ≠ r.ochanId := by
            intro hcontra
            exact hnd.1 (hcontra ▸ List.mem_map_of_mem Request.ochanId hmem)
          rw [responsesTo_serveOne_ne rw act a r.ochanId hne, ih hmem hnd.2]
          rfl

theorem serveOne_infix (rw : RW) (act : I → O) (rs : List (Request I))
    (r : Request I) (hr : r ∈ rs) :
    List.IsInfix (serveOne rw act r) (action rw act rs) := by
  induction rs with
  | nil => exact absurd hr (List.not_mem_nil r)
  | cons a rest ih =>
      cases List.mem_cons.mp hr with
      | inl heq =>
          subst heq
          exact ⟨[], action rw act rest, by simp [action]⟩
      | inr hmem =>
          rcases ih hmem with ⟨pre, post, hsplit⟩
          exact ⟨serveOne rw act a ++ pre, post, by
            rw [action, ← hsplit]; simp⟩

/-- Claim C1: for a lane taught with act `act` under mode `rw`, every
request `r` the dispatcher receives is served by acquiring the lock in the
lane's configured mode, invoking the act synchronously on the input,
releasing the lock, and then sending exactly `act r.input` on that
request's response channel — so the one value the caller can read from the
returned channel is `act r.input` (channel ids are fresh per invocation,
hence distinct). -/
theorem claim_C1_dispatch_serves (rw : RW) (act : I → O)
    (rs : List (Request I)) (r : Request I) (hr : r ∈ rs)
    (hnd : (rs.map Request.ochanId).Nodup) :
    serveOne rw act r =
        [Ev.acquire (lockFor rw), Ev.invoke r.input (act r.input),
         Ev.release (lockFor rw), Ev.respond r.ochanId (act r.input)] ∧
      List.IsInfix (serveOne rw act r) (action rw act rs) ∧
      responsesTo r.ochanId (action rw act rs) = [act r.input] :=
  ⟨rfl, serveOne_infix rw act rs r hr,
    responsesTo_action_nodup rw act rs r hr hnd⟩

/-- Witness for C1: a one-request lane with act `n + 1` on input `5`. -/
theorem claim_C1_witness :
    serveOne Read (fun n => n + 1) (Request.mk 5 0) =
        [Ev.acquire (lockFor Read), Ev.invoke 5 6,
         Ev.release (lockFor Read), Ev.respond 0 6] ∧
      List.IsInfix (serveOne Read (fun n => n + 1) (Request.mk 5 0))
        (action Read (fun n => n + 1) [Request.mk 5 0]) ∧
      responsesTo 0 (action Read (fun n => n + 1) [Request.mk 5 0]) = [6] :=
  claim_C1_dispatch_serves Read (fun n => n + 1) [Request.mk 5 0]
    (Request.mk 5 0) (by decide) (by decide)

/-- Claim C6: every call-wrapper invocation allocates its response channel
with capacity exactly one, the dispatcher sends exactly one value on it
(requests are never reused and ids are fresh), and that single send always
succeeds immediately — `deliver` returns `some`, never the blocked `none`,
regardless of whether the caller ever reads. -/
theorem claim_C6_response_write_nonblocking (rw : RW) (act : I → O)
    (rs : List (Request I)) (r : Request I) (hr : r ∈ rs)
    (hnd : (rs.map Request.ochanId).Nodup) :
    (mkOchan O).cap = 1 ∧
      (responsesTo r.ochanId (action rw act rs)).length = 1 ∧
      deliver (mkOchan O) (responsesTo r.ochanId (action rw act rs)) =
        some { cap := 1, buf := [act r.input] } := by
  have h := responsesTo_action_nodup rw act rs r hr hnd
  refine ⟨rfl, ?_, ?_⟩
  · rw [h]
    rfl
  · rw [h]
    rfl

/-- Witness for C6: a one-request lane with act `n * 2` on input `4`. -/
theorem claim_C6_witness :
    (mkOchan Nat).cap = 1 ∧
      (responsesTo 3 (action Write (fun n => n * 2) [Request.mk 4 3])).length = 1 ∧
      deliver (mkOchan Nat)
          (responsesTo 3 (action Write (fun n => n * 2) [Request.mk 4 3])) =
        some { cap := 1, buf := [8] } :=
  claim_C6_response_write_nonblocking Write (fun n => n * 2)
    [Request.mk 4 3] (Request.mk 4 3) (by decide) (by decide)

/-- Claim C7: when the forwarding goroutine's select loses the race to the
actor's quit channel, the request is silently dropped: it never reaches the
lane (so `rs`, the requests the dispatcher serves, cannot contain its fresh
channel id), no value is ever sent on its response channel, and the channel
stays empty — a caller reading it blocks forever, with no error raised. -/
theorem claim_C7_dropped_request (rw : RW) (act : I → O)
    (rs : List (Request I)) (r : Request I)
    (hfresh : r.ochanId ∉ rs.map Request.ochanId) :
    forward RaceOutcome.quitObserved r = none ∧
      responsesTo r.ochanId (action rw act rs) = [] ∧
      deliver (mkOchan O) (responsesTo r.ochanId (action rw act rs)) =
        some (mkOchan O) ∧
      (mkOchan O).buf = [] := by
  have h := responsesTo_action_not_mem rw act rs r.ochanId hfresh
  exact ⟨rfl, h, by rw [h]; rfl, rfl⟩

/-- Witness for C7: a dropped request with fresh channel id 9 while the
lane serves one other request. -/
theorem claim_C7_witness :
    forward RaceOutcome.quitObserved (Request.mk 1 9) = none ∧
      responsesTo 9 (action Write (fun n => n + 1) [Request.mk 2 0]) = [] ∧
      deliver (mkOchan Nat)
          (responsesTo 9 (action Write (fun n => n + 1) [Request.mk 2 0])) =
        some (mkOchan Nat) ∧
      (mkOchan Nat).buf = ([] : List Nat) :=
  claim_C7_dropped_request Write (fun n => n + 1) [Request.mk 2 0]
    (Request.mk 1 9) (by decide)

/-- Claim C9: within a single lane, requests are served strictly in the
order the lane's channel delivers them: the dispatcher invokes the act on
the inputs in exactly receive order, and the effects on the shared state of
any submission prefix are fully applied before any later submission runs
(state threading in submission order). -/
theorem claim_C9_lane_fifo (rw : RW) (act : I → O) (rs : List (Request I))
    (act2 : I → σ → O × σ) (ws1 ws2 : List I) (s : σ) :
    servedInputs (action rw act rs) = rs.map Request.input ∧
      runLane act2 (ws1 ++ ws2) s =
        ((runLane act2 ws2 (runLane act2 ws1 s).1).1,
         (runLane act2 ws1 s).2 ++ (runLane act2 ws2 (runLane act2 ws1 s).1).2) := by
  constructor
  · induction rs with
    | nil => simp [action, servedInputs]
    | cons r rest ih =>
        rw [action]
        unfold servedInputs at ih ⊢
        rw [List.filterMap_append, ih]
        simp [serveOne]
  · induction ws1 generalizing s with
    | nil => simp [runLane]
    | cons w rest ih =>
        simp only [List.cons_append, runLane, List.append_eq]
        rw [ih]

theorem filter_set_length (p : LaneSt → Bool) (ls : List LaneSt) (j : Nat)
    (l l2 : LaneSt) (hl : ls[j]? = some l) :
    ((ls.set j l2).filter p).length + (if p l then 1 else 0) =
      (ls.filter p).length + (if p l2 then 1 else 0) := by
  induction ls generalizing j with
  | nil => simp at hl
  | cons a as ih =>
      cases j with
      | zero =>
          simp only [List.getElem?_cons_zero, Option.some.injEq] at hl
          subst hl
          simp only [List.set]
          cases hp : p a <;> cases hp2 : p l2 <;>
            simp [List.filter_cons, hp, hp2]
      | succ k =>
          simp only [List.getElem?_cons_succ] at hl
          have hrec := ih k hl
          simp only [List.set]
          cases hp : p a <;> simp [List.filter_cons, hp] <;> omega

theorem filter_set_add (p : LaneSt → Bool) (ls : List LaneSt) (j : Nat)
    (l l2 : LaneSt) (hl : ls[j]? = some l) (hp : p l = false)
    (hp2 : p l2 = true) :
    ((ls.set j l2).filter p).length = (ls.filter p).length + 1 := by
  have h := filter_set_length p ls j l l2 hl
  rw [hp, hp2] at h
  simp at h
  omega

theorem filter_set_sub (p : LaneSt → Bool) (ls : List LaneSt) (j : Nat)
    (l l2 : LaneSt) (hl : ls[j]? = some l) (hp : p l = true)
    (hp2 : p l2 = false) :
    (ls.filter p).length = ((ls.set j l2).filter p).length + 1 := by
  have h := filter_set_length p ls j l l2 hl
  rw [hp, hp2] at h
  simp at h
  omega

theorem filter_set_same (p : LaneSt → Bool) (ls : List LaneSt) (j : Nat)
    (l l2 : LaneSt) (hl : ls[j]? = some l) (hp : p l = false)
    (hp2 : p l2 = false) :
    ((ls.set j l2).filter p).length = (ls.filter p).length := by
  have h := filter_set_length p ls j l l2 hl
  rw [hp, hp2] at h
  simp at h
  omega

theorem sharedBusy_sysInit (modes : List RW) : sharedBusy (sysInit modes) = 0 := by
  unfold sharedBusy sysInit
  induction modes with
  | nil => rfl
  | cons m rest ih =>
      simp only [List.map_cons, List.filter_cons, laneSharedBusy]
      simp only [Bool.false_and, Bool.false_eq_true, if_false]
      exact ih

theorem exclBusy_sysInit (modes : List RW) : exclBusy (sysInit modes) = 0 := by
  unfold exclBusy sysInit
  induction modes with
  | nil => rfl
  | cons m rest ih =>
      simp only [List.map_cons, List.filter_cons, laneExclBusy]
      simp only [Bool.false_and, Bool.false_eq_true, if_false]
      exact ih

theorem lockInv_init (modes : List RW) : lockInv (sysInit modes) := by
  refine ⟨?_, ?_, ?_⟩
  · rw [sharedBusy_sysInit]
    rfl
  · intro h
    exact Bool.noConfusion h
  · intro h
    exact exclBusy_sysInit modes

theorem lockInv_step (s s2 : Sys) (hstep : SysStep s s2) (hinv : lockInv s) :
    lockInv s2 := by
  obtain ⟨h1, h2, h3⟩ := hinv
  simp only [sharedBusy, exclBusy] at h1 h2 h3
  cases hstep with
  | enterShared j l hl hidle hmode hw =>
      have hPl : laneSharedBusy l = false := by
        simp [laneSharedBusy, hidle]
      have hPl2 : laneSharedBusy { l with busy := true } = true := by
        simp [laneSharedBusy, hmode, LockKind.isShared]
      have hQl : laneExclBusy l = false := by
        simp [laneExclBusy, hidle]
      have hQl2 : laneExclBusy { l with busy := true } = false := by
        simp [laneExclBusy, hmode, LockKind.isExcl]
      have hS := filter_set_add laneSharedBusy s.lanes j l _ hl hPl hPl2
      have hE := filter_set_same laneExclBusy s.lanes j l _ hl hQl hQl2
      have hE0 := h3 hw
      refine ⟨?_, ?_, ?_⟩
      · simp only [sharedBusy]
        omega
      · intro h
        exact Bool.noConfusion h
      · intro h
        simp only [exclBusy]
        omega
  | enterExclusive j l hl hidle hmode hw hr =>
      have hPl : laneSharedBusy l = false := by
        simp [laneSharedBusy, hidle]
      have hPl2 : laneSharedBusy { l with busy := true } = false := by
        simp [laneSharedBusy, hmode, LockKind.isShared]
      have hQl : laneExclBusy l = false := by
        simp [laneExclBusy, hidle]
      have hQl2 : laneExclBusy { l with busy := true } = true := by
        simp [laneExclBusy, hmode, LockKind.isExcl]
      have hS := filter_set_same laneSharedBusy s.lanes j l _ hl hPl hPl2
      have hE := filter_set_add laneExclBusy s.lanes j l _ hl hQl hQl2
      have hE0 := h3 hw
      refine ⟨?_, ?_, ?_⟩
      · simp only [sharedBusy]
        omega
      · intro h
        refine ⟨?_, ?_⟩
        · simp only [exclBusy]
          omega
        · rfl
      · intro h
        exact Bool.noConfusion h
  | exitShared j l hl hbusy hmode =>
      have hPl : laneSharedBusy l = true := by
        simp [laneSharedBusy, hbusy, hmode, LockKind.isShared]
      have hPl2 : laneSharedBusy { l with busy := false } = false := by
        simp [laneSharedBusy]
      have hQl : laneExclBusy l = false := by
        simp [laneExclBusy, hmode, LockKind.isExcl]
      have hQl2 : laneExclBusy { l with busy := false } = false := by
        simp [laneExclBusy]
      have hS := filter_set_sub laneSharedBusy s.lanes j l _ hl hPl hPl2
      have hE := filter_set_same laneExclBusy s.lanes j l _ hl hQl hQl2
      have hwf : s.lk.writerHeld = false := by
        cases hb : s.lk.writerHeld with
        | false => rfl
        | true =>
            exfalso
            obtain ⟨hA, hB⟩ := h2 hb
            omega
      have hE0 := h3 hwf
      refine ⟨?_, ?_, ?_⟩
      · simp only [sharedBusy]
        omega
      · intro h
        rw [hwf] at h
        exact Bool.noConfusion h
      · intro h
        simp only [exclBusy]
        omega
  | exitExclusive j l hl hbusy hmode =>
      have hPl : laneSharedBusy l = false := by
        simp [laneSharedBusy, hmode, LockKind.isShared]
      have hPl2 : laneSharedBusy { l with busy := false } = false := by
        simp [laneSharedBusy]
      have hQl : laneExclBusy l = true := by
        simp [laneExclBusy, hbusy, hmode, LockKind.isExcl]
      have hQl2 : laneExclBusy { l with busy := false } = false := by
        simp [laneExclBusy]
      have hS := filter_set_same laneSharedBusy s.lanes j l _ hl hPl hPl2
      have hE := filter_set_sub laneExclBusy s.lanes j l _ hl hQl hQl2
      have hwt : s.lk.writerHeld = true := by
        cases hb : s.lk.writerHeld with
        | true => rfl
        | false =>
            exfalso
            have hE0 := h3 hb
            omega
      obtain ⟨hE1, hR0⟩ := h2 hwt
      refine ⟨?_, ?_, ?_⟩
      · simp only [sharedBusy]
        omega
      · intro h
        exact Bool.noConfusion h
      · intro h
        simp only [exclBusy]
        omega

theorem lockInv_reachable (modes : List RW) (s : Sys) (h : Reachable modes s) :
    lockInv s := by
  unfold Reachable at h
  induction h with
  | refl => exact lockInv_init modes
  | tail _ h2 ih => exact lockInv_step _ _ h2 ih

/-- Claim C2: on one actor, at every reachable instant there is at most one
exclusive-mode act execution in progress, and whenever one is in progress
no shared-mode execution overlaps it — while shared-mode executions may
overlap each other freely: a state with two concurrently executing reader
lanes is reachable. -/
theorem claim_C2_rw_exclusion (modes : List RW) (s : Sys)
    (h : Reachable modes s) :
    exclBusy s ≤ 1 ∧ (1 ≤ exclBusy s → sharedBusy s = 0) ∧
      ∃ s2, Reachable [Read, Read] s2 ∧ sharedBusy s2 = 2 := by
  obtain ⟨h1, h2, h3⟩ := lockInv_reachable modes s h
  refine ⟨?_, ?_, ?_⟩
  · cases hb : s.lk.writerHeld with
    | true =>
        obtain ⟨hA, hB⟩ := h2 hb
        omega
    | false =>
        have hE0 := h3 hb
        omega
  · intro hge
    cases hb : s.lk.writerHeld with
    | false =>
        have hE0 := h3 hb
        omega
    | true =>
        obtain ⟨hA, hB⟩ := h2 hb
        omega
  · have hm : lockFor Read = LockKind.shared := by decide
    have step1 : SysStep (sysInit [Read, Read])
        { lk := { readers := 1, writerHeld := false },
          lanes := [{ rw := Read, busy := true }, { rw := Read, busy := false }] } :=
      SysStep.enterShared (sysInit [Read, Read]) 0
        { rw := Read, busy := false } rfl rfl hm rfl
    have step2 : SysStep
        { lk := { readers := 1, writerHeld := false },
          lanes := [{ rw := Read, busy := true }, { rw := Read, busy := false }] }
        { lk := { readers := 2, writerHeld := false },
          lanes := [{ rw := Read, busy := true }, { rw := Read, busy := true }] } :=
      SysStep.enterShared
        { lk := { readers := 1, writerHeld := false },
          lanes := [{ rw := Read, busy := true }, { rw := Read, busy := false }] }
        1 { rw := Read, busy := false } rfl rfl hm rfl
    refine ⟨_, Relation.ReflTransGen.head step1
      (Relation.ReflTransGen.head step2 Relation.ReflTransGen.refl), ?_⟩
    decide

/-- Witness for C2 at the freshly initialized one-reader-lane actor. -/
theorem claim_C2_witness :
    exclBusy (sysInit [Read]) ≤ 1 ∧
      (1 ≤ exclBusy (sysInit [Read]) → sharedBusy (sysInit [Read]) = 0) ∧
      ∃ s2, Reachable [Read, Read] s2 ∧ sharedBusy s2 = 2 :=
  claim_C2_rw_exclusion [Read] (sysInit [Read]) Relation.ReflTransGen.refl

end ActorSpec
